import Mathlib

/- Shallow embedding of the vita simulator core: the gene codec (src/creature/gene.rs),
the staged neural-activation engine (src/creature/brain.rs) and the world grid
(src/world/mod.rs). Machine integers (u8, u16, i16, u32) are modelled as Nat/Int with
explicit wrapping where the Rust casts matter; Rust panics are modelled as none. -/

namespace Vita

/-- Reinterpret the low 16 bits of a natural number as a signed 16-bit value
(the Rust `as i16` cast). -/
def toI16 (n : Nat) : Int :=
  if n % 65536 < 32768 then ((n % 65536 : Nat) : Int) else ((n % 65536 : Nat) : Int) - 65536

/-- Wrap an integer into the signed 16-bit range (two's-complement i16 overflow). -/
def wrapI16 (z : Int) : Int := (z + 32768) % 65536 - 32768

/-- Wrapping 16-bit unsigned addition. -/
def addU16 (a b : Nat) : Nat := (a + b) % 65536

/-- Wrapping 16-bit unsigned subtraction. -/
def subU16 (a b : Nat) : Nat := (a + 65536 - b % 65536) % 65536

/-- The Rust `i16 as u32` cast: sign-extends, so a negative weight fills the
upper 16 bits with ones. -/
def u32OfI16 (w : Int) : Nat := (w % 4294967296).toNat

/-- Neuron layers (brain.rs `NeuronLayer`). -/
inductive NeuronLayer where
  | Input
  | Internal
  | Output
deriving DecidableEq, Repr

/-- Neuron kinds (brain.rs `NeuronType`). -/
inductive NeuronType where
  | Random
  | BlockLeftRight
  | BlockForward
  | LastMovementY
  | LastMovementX
  | BorderDistanceNorthSouth
  | BorderDistanceEastWest
  | WordLocationNorthSouth
  | WordLocationEastWest
  | Internal
  | MoveForward
  | MoveRandom
  | MoveReverse
  | MoveLeftRight
  | MoveEastWest
  | MoveNorthSouth
deriving DecidableEq, Repr

/-- A gene (gene.rs `Gene`): two raw bytes and a signed 16-bit weight.
`source` and `destination` are bytes, kept as Nat below 256 by construction. -/
structure Gene where
  source : Nat
  destination : Nat
  weight : Int
deriving DecidableEq, Repr

/-- Neuron-count description of a brain (brain.rs `BrainDescription`), u8 fields. -/
structure BrainDescription where
  num_input : Nat
  num_internal : Nat
  num_output : Nat
deriving DecidableEq, Repr

/-- A decoded neuron reference (brain.rs `NeuronDescription`). -/
structure NeuronDescription where
  neuron_layer : NeuronLayer
  neuron_number : Nat
deriving DecidableEq, Repr

/-- Gene construction (gene.rs `Gene::init`). The Rust code panics when the source
layer is Output or the destination layer is Input; the panic is modelled as `none`. -/
def Gene.init (source_layer : NeuronLayer) (source_number : Nat)
    (destination_layer : NeuronLayer) (destination_number : Nat) (weight : Int) :
    Option Gene :=
  if source_layer = NeuronLayer.Output then none
  else if destination_layer = NeuronLayer.Input then none
  else
    let source := match source_layer with
      | NeuronLayer.Input => source_number
      | NeuronLayer.Internal => 128 ||| source_number
      | NeuronLayer.Output => 0
    let destination := match destination_layer with
      | NeuronLayer.Input => 0
      | NeuronLayer.Internal => destination_number
      | NeuronLayer.Output => 128 ||| destination_number
    some { source := source, destination := destination, weight := weight }

/-- High bit of the source byte selects Input (0) or Internal (1) (gene.rs). -/
def Gene.get_source_neuron_layer (g : Gene) : NeuronLayer :=
  if g.source &&& 128 = 0 then NeuronLayer.Input else NeuronLayer.Internal

/-- High bit of the destination byte selects Internal (0) or Output (1) (gene.rs). -/
def Gene.get_destination_neuron_layer (g : Gene) : NeuronLayer :=
  if g.destination &&& 128 = 0 then NeuronLayer.Internal else NeuronLayer.Output

/-- Decode a raw byte into a neuron index for a layer (gene.rs `Gene::get_neuron`).
The Internal arm of the Rust match reduces modulo `num_input`, exactly as the source
does at gene.rs:119. Rust `%` panics on a zero divisor, modelled as `none`. -/
def Gene.get_neuron (neuron_layer : NeuronLayer) (raw_number : Nat)
    (brain : BrainDescription) : Option NeuronDescription :=
  let m := match neuron_layer with
    | NeuronLayer.Input => brain.num_input
    | NeuronLayer.Internal => brain.num_input
    | NeuronLayer.Output => brain.num_output
  if m = 0 then none
  else some { neuron_layer := neuron_layer, neuron_number := (raw_number &&& 127) % m }

/-- Decode the source neuron of a gene (gene.rs `Gene::get_source_neuron`). -/
def Gene.get_source_neuron (g : Gene) (brain : BrainDescription) :
    Option NeuronDescription :=
  Gene.get_neuron g.get_source_neuron_layer g.source brain

/-- Decode the destination neuron of a gene (gene.rs `Gene::get_destination_neuron`). -/
def Gene.get_destination_neuron (g : Gene) (brain : BrainDescription) :
    Option NeuronDescription :=
  Gene.get_neuron g.get_destination_neuron_layer g.destination brain

/-- Single-bit mutation (gene.rs `Gene::mutate`): packs the gene into 32 bits via
`source<<24 | destination<<16 | (weight as u32)` (note the sign-extending cast),
XORs one bit, and re-splits. Bit indices at or above 32 panic, modelled as `none`. -/
def Gene.mutate (g : Gene) (bit : Nat) : Option Gene :=
  if 32 ≤ bit then none
  else
    let raw_gene := (g.source <<< 24) ||| (g.destination <<< 16) ||| u32OfI16 g.weight
    let new_raw_gene := raw_gene ^^^ (1 <<< bit)
    some { source := (new_raw_gene >>> 24) % 256
           destination := (new_raw_gene >>> 16) % 256
           weight := toI16 new_raw_gene }

end Vita

namespace Vita

/-- World boundary (world/mod.rs `Size`), u16 fields. -/
structure Size where
  width : Nat
  height : Nat
deriving DecidableEq, Repr

/-- A grid position (world/mod.rs `Position`), u16 fields. -/
structure Position where
  x : Nat
  y : Nat
deriving DecidableEq, Repr

/-- Compass headings (world/mod.rs `Direction`). -/
inductive Direction where
  | North
  | South
  | East
  | West
deriving DecidableEq, Repr

/-- Boundary membership (world/mod.rs `Size::inside`). -/
def Size.inside (s : Size) (p : Position) : Bool :=
  decide (p.x < s.width) && decide (p.y < s.height)

/-- Directional stepping (world/mod.rs `Position::move_direction`), with the
Rust `u16`/`as i16` arithmetic made explicit: North/East compare the wrapped sum
against the boundary, South/West test `(coord as i16 - step as i16) < 0` before a
wrapping unsigned subtraction. -/
def Position.move_direction (p : Position) (d : Direction) (step : Nat) (b : Size) :
    Option Position :=
  match d with
  | Direction.North =>
      if b.height ≤ addU16 p.y step then none
      else some { x := p.x, y := addU16 p.y step }
  | Direction.South =>
      if wrapI16 (toI16 p.y - toI16 step) < 0 then none
      else some { x := p.x, y := subU16 p.y step }
  | Direction.East =>
      if b.width ≤ addU16 p.x step then none
      else some { x := addU16 p.x step, y := p.y }
  | Direction.West =>
      if wrapI16 (toI16 p.x - toI16 step) < 0 then none
      else some { x := subU16 p.x step, y := p.y }

/-- A creature as the world claims need it: its stored position plus an opaque
payload standing for the brain, genes and direction fields, which
`World::move_creature` never touches. -/
structure Creature (β : Type) where
  position : Position
  payload : β

/-- The world (world/mod.rs `World`): occupancy map from positions to creature
clones, plus the boundary. The HashMap is modelled as a function to `Option`. -/
structure World (β : Type) where
  coordinates : Position → Option (Creature β)
  boundary : Size

/-- The empty 128 x 128 world (world/mod.rs `World::init`). -/
def World.empty : World Unit :=
  { coordinates := fun _ => none, boundary := { width := 128, height := 128 } }

/-- Movement resolution (world/mod.rs `World::move_creature`). The candidate next
position is passed in explicitly: in the source it is derived from the brain's
desired move (floating point and randomness), and both movement claims quantify
over the candidate cell. The desync panic is modelled as `none`; the occupied and
out-of-boundary rejections return the world and creature unchanged; a legal move
removes the old entry, updates the creature's position, and inserts the clone at
the new key. -/
def World.move_creature (w : World β) (c : Creature β) (next_position : Position) :
    Option (World β × Creature β) :=
  if (w.coordinates c.position).isSome then
    if (w.coordinates next_position).isSome then
      -- The creature can't move into an already occupied spot
      some (w, c)
    else if w.boundary.inside next_position then
      let c2 : Creature β := { c with position := next_position }
      some ({ w with coordinates := fun p =>
                if p = c2.position then some c2
                else if p = c.position then none
                else w.coordinates p },
            c2)
    else
      -- The move should stay inside the boundary
      some (w, c)
  else none

/-- Value computed by the `BlockForward` arm of `Neuron::set_from_world`
(brain.rs:313-320): 1.0 when the forward cell exists and is occupied, else 0.0. -/
def block_forward_value (w : World β) (position : Position) (direction : Direction) :
    ℚ :=
  match position.move_direction direction 1 w.boundary with
  | some forward => if (w.coordinates forward).isSome then 1 else 0
  | none => 0

/-- A neuron (brain.rs `Neuron`). The f32 value is idealized as a rational; the
only transcendental operations applied to it (tanh and atanh) are passed to the
compute functions as parameters. -/
structure Neuron where
  neuron_type : NeuronType
  neuron_layer : NeuronLayer
  value : ℚ
deriving DecidableEq, Repr

/-- The brain's three neuron arrays (brain.rs `Brain`). -/
structure Brain where
  input : List Neuron
  internal : List Neuron
  output : List Neuron
deriving DecidableEq, Repr

/-- The nine input neuron kinds (brain.rs `INPUT_NEURONS`). -/
def INPUT_NEURONS : List NeuronType :=
  [NeuronType.Random, NeuronType.BlockLeftRight, NeuronType.BlockForward,
   NeuronType.LastMovementY, NeuronType.LastMovementX,
   NeuronType.BorderDistanceNorthSouth, NeuronType.BorderDistanceEastWest,
   NeuronType.WordLocationNorthSouth, NeuronType.WordLocationEastWest]

/-- The six output neuron kinds (brain.rs `OUTPUT_NEURONS`). -/
def OUTPUT_NEURONS : List NeuronType :=
  [NeuronType.MoveForward, NeuronType.MoveRandom, NeuronType.MoveReverse,
   NeuronType.MoveLeftRight, NeuronType.MoveEastWest, NeuronType.MoveNorthSouth]

/-- Brain construction (brain.rs `Brain::init`): nine zeroed input neurons, six
zeroed output neurons, `num_internal` zeroed internal neurons. -/
def Brain.init (num_internal : Nat) : Brain :=
  { input := INPUT_NEURONS.map fun t =>
      { neuron_type := t, neuron_layer := NeuronLayer.Input, value := 0 }
    output := OUTPUT_NEURONS.map fun t =>
      { neuron_type := t, neuron_layer := NeuronLayer.Output, value := 0 }
    internal := List.replicate num_internal
      { neuron_type := NeuronType.Internal, neuron_layer := NeuronLayer.Internal,
        value := 0 } }

/-- Neuron counts of a brain (brain.rs `Brain::to_brain_description`); the Rust
`len() as u8` casts wrap modulo 256. -/
def Brain.to_brain_description (b : Brain) : BrainDescription :=
  { num_input := b.input.length % 256
    num_internal := b.internal.length % 256
    num_output := b.output.length % 256 }

/-- Zero the values of one layer (brain.rs `Brain::reset_neurons_layer`). -/
def Brain.reset_neurons_layer (b : Brain) (layer : NeuronLayer) : Brain :=
  match layer with
  | NeuronLayer.Input =>
      { b with input := b.input.map fun n => { n with value := 0 } }
  | NeuronLayer.Internal =>
      { b with internal := b.internal.map fun n => { n with value := 0 } }
  | NeuronLayer.Output =>
      { b with output := b.output.map fun n => { n with value := 0 } }

/-- Look a neuron up by its descriptor (brain.rs `Brain::desc_to_neuron`); a Rust
out-of-bounds index panics, modelled as `none`. -/
def Brain.desc_to_neuron (b : Brain) (desc : NeuronDescription) : Option Neuron :=
  match desc.neuron_layer with
  | NeuronLayer.Input => b.input.get? desc.neuron_number
  | NeuronLayer.Internal => b.internal.get? desc.neuron_number
  | NeuronLayer.Output => b.output.get? desc.neuron_number

/-- A decoded connection (brain.rs `NeuronConnection`), weight already scaled. -/
structure NeuronConnection where
  source : NeuronDescription
  destination : NeuronDescription
  weight : ℚ
deriving DecidableEq, Repr

/-- Decode a genome into connections (brain.rs `Brain::get_connection_from_genes`);
the raw weight is scaled by 1/8192, an exact power-of-two division. -/
def Brain.get_connection_from_genes (b : Brain) :
    List Gene → Option (List NeuronConnection)
  | [] => some []
  | g :: rest =>
    match g.get_source_neuron b.to_brain_description,
        g.get_destination_neuron b.to_brain_description,
        Brain.get_connection_from_genes b rest with
    | some s, some d, some cs =>
        some ({ source := s, destination := d, weight := (g.weight : ℚ) / 8192 } :: cs)
    | _, _, _ => none

/-- Accumulate a change for one destination index into the scratch map
(the `changes.insert(dest, old + weighted)` step of brain.rs:161-168). The HashMap
is modelled as an association list with unique keys. -/
def insert_add : List (Nat × ℚ) → Nat → ℚ → List (Nat × ℚ)
  | [], k, v => [(k, v)]
  | (k2, v2) :: rest, k, v =>
      if k = k2 then (k2, v2 + v) :: rest else (k2, v2) :: insert_add rest k v

/-- The accumulation loop of `compute_normalized_sum_on_destination_neurons`
(brain.rs:151-170): for each connection matching the stage's layer pair, add
`source.value * weight` to the destination's scratch entry. A failed source
lookup is the Rust indexing panic. -/
def Brain.accum_changes (b : Brain) (source_layer destination_layer : NeuronLayer) :
    List NeuronConnection → List (Nat × ℚ) → Option (List (Nat × ℚ))
  | [], acc => some acc
  | c :: rest, acc =>
    if c.source.neuron_layer = source_layer ∧
        c.destination.neuron_layer = destination_layer then
      match b.desc_to_neuron c.source with
      | none => none
      | some src =>
          Brain.accum_changes b source_layer destination_layer rest
            (insert_add acc c.destination.neuron_number (src.value * c.weight))
    else Brain.accum_changes b source_layer destination_layer rest acc

/-- Apply one accumulated change to the destination neuron at index `k` of the
given layer: `value := tanh (atanh value + change)` (brain.rs:172-178). A failed
lookup is the Rust indexing panic. -/
def Brain.apply_change_at (t a : ℚ → ℚ) (b : Brain) (destination_layer : NeuronLayer)
    (k : Nat) (change : ℚ) : Option Brain :=
  match destination_layer with
  | NeuronLayer.Input =>
      match b.input.get? k with
      | none => none
      | some n =>
          some { b with input := b.input.set k { n with value := t (a n.value + change) } }
  | NeuronLayer.Internal =>
      match b.internal.get? k with
      | none => none
      | some n =>
          some { b with internal := b.internal.set k { n with value := t (a n.value + change) } }
  | NeuronLayer.Output =>
      match b.output.get? k with
      | none => none
      | some n =>
          some { b with output := b.output.set k { n with value := t (a n.value + change) } }

/-- Apply all accumulated changes in sequence (the second loop of
brain.rs:172-178). HashMap iteration order is arbitrary in Rust, but the keys are
distinct and each updates a different neuron, so any order yields this result. -/
def Brain.apply_all (t a : ℚ → ℚ) (destination_layer : NeuronLayer) :
    List (Nat × ℚ) → Brain → Option Brain
  | [], b => some b
  | ch :: rest, b =>
    match Brain.apply_change_at t a b destination_layer ch.1 ch.2 with
    | none => none
    | some b2 => Brain.apply_all t a destination_layer rest b2

/-- One deferred-commit stage
(brain.rs `Brain::compute_normalized_sum_on_destination_neurons`). -/
def Brain.compute_normalized_sum_on_destination_neurons (t a : ℚ → ℚ) (b : Brain)
    (connections : List NeuronConnection)
    (source_layer destination_layer : NeuronLayer) : Option Brain :=
  match Brain.accum_changes b source_layer destination_layer connections [] with
  | none => none
  | some changes => Brain.apply_all t a destination_layer changes b

/-- The reset phase of the compute cycle (brain.rs:75-76): zero the Internal and
Output layers. -/
def Brain.reset_for_compute (b : Brain) : Brain :=
  (b.reset_neurons_layer NeuronLayer.Internal).reset_neurons_layer
    NeuronLayer.Output

/-- The full compute cycle (brain.rs `Brain::compute_neurons_state`): reset the
Internal and Output layers, decode the genome, then run the four stages
Input to Internal, Input to Output, Internal to Internal, Internal to Output.
`t` and `a` stand for the f32 `tanh` and `atanh`. -/
def Brain.compute_neurons_state (t a : ℚ → ℚ) (b : Brain) (genes : List Gene) :
    Option Brain :=
  match b.reset_for_compute.get_connection_from_genes genes with
  | none => none
  | some connections =>
    match b.reset_for_compute.compute_normalized_sum_on_destination_neurons t a
        connections NeuronLayer.Input NeuronLayer.Internal with
    | none => none
    | some b1 =>
      match b1.compute_normalized_sum_on_destination_neurons t a connections
          NeuronLayer.Input NeuronLayer.Output with
      | none => none
      | some b2 =>
        match b2.compute_normalized_sum_on_destination_neurons t a connections
            NeuronLayer.Internal NeuronLayer.Internal with
        | none => none
        | some b3 =>
          b3.compute_normalized_sum_on_destination_neurons t a connections
            NeuronLayer.Internal NeuronLayer.Output

end Vita

namespace Vita

/-- Claim C1 (code_bug): decoding is claimed to map the raw 7-bit field to
`rawValue % countForLayer(layer)`, but the Internal arm of `Gene::get_neuron`
(gene.rs:119) reduces modulo `num_input`. Against the topology of `Brain::init 20`
(9 inputs, 20 internal, 6 outputs), the gene built from (Internal, 10, Internal, 0, 0)
decodes its source index to 10 % 9 = 1, while the claim demands 10 % 20 = 10. -/
theorem c1_internal_decode_uses_input_count :
    ((Gene.init NeuronLayer.Internal 10 NeuronLayer.Internal 0 0).bind
        (fun g => g.get_source_neuron ((Brain.init 20).to_brain_description))) =
      some { neuron_layer := NeuronLayer.Internal, neuron_number := 1 } ∧
    (10 : Nat) % ((Brain.init 20).to_brain_description).num_internal = 10 := by
  exact ⟨rfl, rfl⟩

/-- Claim C2 (code_bug): `compute_neurons_state` is claimed never to index out of
bounds, but because the Internal arm of the decoder reduces modulo `num_input` = 9
rather than `num_internal`, a brain with 2 internal neurons and the single gene
with source byte 133 (Internal, raw index 5) and destination byte 128 (Output 0)
reads `internal[5]` in the Internal-to-Output stage: an out-of-bounds panic,
modelled here as `none`. -/
theorem c2_compute_panics_on_internal_index :
    Brain.compute_neurons_state id id (Brain.init 2)
      [{ source := 133, destination := 128, weight := 0 }] = none := by
  rfl

/-- Claim C7 (code_bug): `Gene::mutate` is claimed to be an involution, but the
pack step `(self.weight as u32)` (gene.rs:105) sign-extends a negative weight,
ORing ones over the source and destination bits. Starting from the gene
(0, 0, -1) and flipping bit 31 twice yields (127, 255, -1), not the original. -/
theorem c7_mutate_double_not_identity :
    ((Gene.mutate { source := 0, destination := 0, weight := -1 } 31).bind
        (fun g => Gene.mutate g 31)) =
      some { source := 127, destination := 255, weight := -1 } ∧
    ({ source := 127, destination := 255, weight := -1 } : Gene) ≠
      { source := 0, destination := 0, weight := -1 } := by
  exact ⟨rfl, by decide⟩

/-- Claim C8: gene construction fails exactly when the source layer is Output or
the destination layer is Input (gene.rs `Gene::init`, the panic modelled as
`none`); every other layer combination succeeds. -/
theorem c8_gene_init_topology (sl : NeuronLayer) (sn : Nat) (dl : NeuronLayer)
    (dn : Nat) (w : Int) :
    Gene.init sl sn dl dn w = none ↔ (sl = NeuronLayer.Output ∨ dl = NeuronLayer.Input) := by
  cases sl <;> cases dl <;> simp [Gene.init]

end Vita

namespace Vita

/-- Claim C4: when the creature is present in the occupancy map and the candidate
cell is occupied or outside the boundary, `World::move_creature` returns with the
world's occupancy map and the creature's stored position unchanged. -/
theorem c4_move_rejected_no_change {β : Type} (w : World β) (c : Creature β)
    (next : Position) (h1 : (w.coordinates c.position).isSome = true)
    (h2 : (w.coordinates next).isSome = true ∨ w.boundary.inside next = false) :
    w.move_creature c next = some (w, c) := by
  rcases h2 with h2 | h2
  · simp [World.move_creature, h1, h2]
  · by_cases hocc : (w.coordinates next).isSome = true
    · simp [World.move_creature, h1, hocc]
    · simp [World.move_creature, h1, hocc, h2]

/-- Witness world for the movement claims: two creatures at (0,0) and (1,0) in a
128 x 128 boundary. -/
def creature0 : Creature Unit := { position := { x := 0, y := 0 }, payload := () }

/-- Second creature of the witness world, at (1,0). -/
def creature1 : Creature Unit := { position := { x := 1, y := 0 }, payload := () }

/-- The witness world holding `creature0` and `creature1`. -/
def world0 : World Unit :=
  { coordinates := fun p =>
      if p = { x := 0, y := 0 } then some creature0
      else if p = { x := 1, y := 0 } then some creature1
      else none
    boundary := { width := 128, height := 128 } }

/-- Witness for claim C4: `creature0` attempts to move onto the occupied cell
(1,0) and everything is left unchanged. -/
theorem c4_move_rejected_no_change_witness :
    world0.move_creature creature0 { x := 1, y := 0 } = some (world0, creature0) :=
  c4_move_rejected_no_change world0 creature0 { x := 1, y := 0 } (by rfl)
    (Or.inl (by rfl))

/-- Claim C5: when the creature is present, the candidate cell is unoccupied and
inside the boundary, `World::move_creature` commits atomically: the returned
world maps the candidate cell to the moved creature, drops the old entry, leaves
every other cell unchanged, and the creature's stored position equals the new
key while its other fields are untouched. -/
theorem c5_move_commit_atomic {β : Type} (w : World β) (c : Creature β)
    (next : Position) (h1 : (w.coordinates c.position).isSome = true)
    (h2 : w.coordinates next = none) (h3 : w.boundary.inside next = true) :
    ∃ w2 c2, w.move_creature c next = some (w2, c2) ∧
      c2.position = next ∧
      w2.coordinates next = some c2 ∧
      w2.coordinates c.position = none ∧
      (∀ p, p ≠ next → p ≠ c.position → w2.coordinates p = w.coordinates p) ∧
      c2.payload = c.payload := by
  have hne : c.position ≠ next := by
    intro he
    rw [he, h2] at h1
    simp at h1
  refine ⟨{ w with coordinates := fun p =>
      if p = next then some { c with position := next }
      else if p = c.position then none
      else w.coordinates p },
    { c with position := next }, ?_, rfl, ?_, ?_, ?_, rfl⟩
  · simp [World.move_creature, h1, h2, h3]
  · simp
  · simp [hne]
  · intro p hp hpc
    simp [hp, hpc]

/-- Witness for claim C5: `creature0` moves to the free cell (2,0); the map gains
exactly that entry, loses (0,0), and the stored position matches the new key. -/
theorem c5_move_commit_atomic_witness :
    ∃ w2 c2, world0.move_creature creature0 { x := 2, y := 0 } = some (w2, c2) ∧
      c2.position = { x := 2, y := 0 } ∧
      w2.coordinates { x := 2, y := 0 } = some c2 ∧
      w2.coordinates creature0.position = none ∧
      (∀ p, p ≠ { x := 2, y := 0 } → p ≠ creature0.position →
        w2.coordinates p = world0.coordinates p) ∧
      c2.payload = creature0.payload :=
  c5_move_commit_atomic world0 creature0 { x := 2, y := 0 } (by rfl) (by rfl) (by rfl)

end Vita

namespace Vita

/-- Counterexample for claim C6: in the empty 128 x 128 world, a creature at
(0,127) facing North has its forward cell outside the boundary
(`move_direction` is `none`), yet the BlockForward value is 0.0 where the claim
demands 1.0 for an out-of-boundary cell ahead. -/
theorem c6_block_forward_boundary_counterexample :
    Position.move_direction { x := 0, y := 127 } Direction.North 1
      World.empty.boundary = none ∧
    block_forward_value World.empty { x := 0, y := 127 } Direction.North = 0 := by
  exact ⟨rfl, rfl⟩

/-- Claim C6 as amended: the BlockForward sensor value is 1.0 exactly when the
cell directly ahead exists inside the boundary and is occupied, and 0.0 in every
other case, including when the cell ahead lies outside the world boundary
(brain.rs:313-320). -/
theorem c6_block_forward_amended {β : Type} (w : World β) (p : Position)
    (d : Direction) :
    (block_forward_value w p d = 1 ∨ block_forward_value w p d = 0) ∧
    (block_forward_value w p d = 1 ↔
      ∃ q, p.move_direction d 1 w.boundary = some q ∧
        (w.coordinates q).isSome = true) := by
  unfold block_forward_value
  cases hm : p.move_direction d 1 w.boundary with
  | none => simp
  | some q =>
    by_cases ho : (w.coordinates q).isSome = true
    · simp [ho]
    · simp [ho]

/-- Counterexample for claim C9: from (0,40000) — a valid u16 position inside a
50000 x 50000 boundary — one step South neither underflows (1 is at most 40000)
nor leaves the boundary (39999 is below 50000), so the claim demands the stepped
position; but `y as i16` reinterprets 40000 as a negative value
(world/mod.rs:106) and the code refuses the step. -/
theorem c9_move_direction_counterexample :
    Position.move_direction { x := 0, y := 40000 } Direction.South 1
      { width := 50000, height := 50000 } = none ∧
    1 ≤ (40000 : Nat) ∧ (40000 : Nat) - 1 < 50000 := by
  exact ⟨rfl, by decide, by decide⟩

/-- Claim C9 as amended: for coordinates and step counts below 2^15 — where the
`u16` sums cannot wrap and the `as i16` casts are value-preserving —
`move_direction` returns `none` exactly when the stepped coordinate would
underflow below 0 or reach or exceed the boundary's width/height, and otherwise
the position moved by `step` along the direction. -/
theorem c9_move_direction_amended (p : Position) (d : Direction) (step : Nat)
    (b : Size) (hx : p.x < 32768) (hy : p.y < 32768) (hs : step < 32768) :
    p.move_direction d step b =
      match d with
      | Direction.North =>
          if b.height ≤ p.y + step then none else some { x := p.x, y := p.y + step }
      | Direction.South =>
          if p.y < step then none else some { x := p.x, y := p.y - step }
      | Direction.East =>
          if b.width ≤ p.x + step then none else some { x := p.x + step, y := p.y }
      | Direction.West =>
          if p.x < step then none else some { x := p.x - step, y := p.y } := by
  have hadd : ∀ a : Nat, a < 32768 → addU16 a step = a + step := by
    intro a ha
    unfold addU16
    omega
  have hsub : ∀ a : Nat, a < 32768 → ¬ a < step → subU16 a step = a - step := by
    intro a ha hlt
    unfold subU16
    omega
  have hwrap : ∀ a : Nat, a < 32768 →
      (wrapI16 (toI16 a - toI16 step) < 0 ↔ a < step) := by
    intro a ha
    unfold wrapI16 toI16
    rw [Nat.mod_eq_of_lt (by omega : a < 65536),
      Nat.mod_eq_of_lt (by omega : step < 65536), if_pos ha, if_pos hs]
    omega
  cases d with
  | North =>
    simp only [Position.move_direction, hadd p.y hy]
  | South =>
    simp only [Position.move_direction]
    by_cases hc : p.y < step
    · rw [if_pos ((hwrap p.y hy).mpr hc), if_pos hc]
    · rw [if_neg (fun h => hc ((hwrap p.y hy).mp h)), if_neg hc, hsub p.y hy hc]
  | East =>
    simp only [Position.move_direction, hadd p.x hx]
  | West =>
    simp only [Position.move_direction]
    by_cases hc : p.x < step
    · rw [if_pos ((hwrap p.x hx).mpr hc), if_pos hc]
    · rw [if_neg (fun h => hc ((hwrap p.x hx).mp h)), if_neg hc, hsub p.x hx hc]

/-- Witness for the amended claim C9: stepping North from (1,1) inside the
128 x 128 boundary yields (1,2). -/
theorem c9_move_direction_amended_witness :
    Position.move_direction { x := 1, y := 1 } Direction.North 1
      { width := 128, height := 128 } =
      (if (128 : Nat) ≤ 1 + 1 then none else some { x := 1, y := 1 + 1 }) :=
  c9_move_direction_amended { x := 1, y := 1 } Direction.North 1
    { width := 128, height := 128 } (by decide) (by decide) (by decide)

end Vita

namespace Vita

/-- Helper: applying one accumulated change to a non-Input layer leaves the input
neuron array untouched. -/
theorem apply_change_at_preserves_input (t a : ℚ → ℚ) (b : Brain)
    (dl : NeuronLayer) (k : Nat) (v : ℚ) (hdl : dl ≠ NeuronLayer.Input)
    (b2 : Brain) (h : Brain.apply_change_at t a b dl k v = some b2) :
    b2.input = b.input := by
  cases dl with
  | Input => exact absurd rfl hdl
  | Internal =>
    unfold Brain.apply_change_at at h
    cases hg : b.internal.get? k with
    | none => rw [hg] at h; cases h
    | some n => rw [hg] at h; cases h; rfl
  | Output =>
    unfold Brain.apply_change_at at h
    cases hg : b.output.get? k with
    | none => rw [hg] at h; cases h
    | some n => rw [hg] at h; cases h; rfl

/-- Helper: applying a whole change list to a non-Input layer leaves the input
neuron array untouched. -/
theorem apply_all_preserves_input (t a : ℚ → ℚ) (dl : NeuronLayer)
    (hdl : dl ≠ NeuronLayer.Input) :
    ∀ (chs : List (Nat × ℚ)) (b b2 : Brain),
      Brain.apply_all t a dl chs b = some b2 → b2.input = b.input := by
  intro chs
  induction chs with
  | nil =>
    intro b b2 h
    unfold Brain.apply_all at h
    cases h
    rfl
  | cons ch rest ih =>
    intro b b2 h
    unfold Brain.apply_all at h
    cases hac : Brain.apply_change_at t a b dl ch.1 ch.2 with
    | none => rw [hac] at h; cases h
    | some bm =>
      rw [hac] at h
      exact (ih bm b2 h).trans
        (apply_change_at_preserves_input t a b dl ch.1 ch.2 hdl bm hac)

/-- Helper: one deferred-commit stage with a non-Input destination layer leaves
the input neuron array untouched. -/
theorem stage_preserves_input (t a : ℚ → ℚ) (b : Brain)
    (connections : List NeuronConnection) (sl dl : NeuronLayer)
    (hdl : dl ≠ NeuronLayer.Input) (b2 : Brain)
    (h : Brain.compute_normalized_sum_on_destination_neurons t a b connections
      sl dl = some b2) : b2.input = b.input := by
  unfold Brain.compute_normalized_sum_on_destination_neurons at h
  cases hac : Brain.accum_changes b sl dl connections [] with
  | none => rw [hac] at h; cases h
  | some chs =>
    rw [hac] at h
    exact apply_all_preserves_input t a dl hdl chs b b2 h

/-- Claim C10: a full compute cycle never writes an Input neuron — whenever
`compute_neurons_state` completes, the input array of the result is exactly the
input array of the starting brain, for any activation functions, any starting
values and any genome. -/
theorem c10_input_neurons_unchanged (t a : ℚ → ℚ) (b : Brain) (genes : List Gene)
    (b2 : Brain) (h : Brain.compute_neurons_state t a b genes = some b2) :
    b2.input = b.input := by
  unfold Brain.compute_neurons_state at h
  generalize hb0 : b.reset_for_compute = b0 at h
  have hrin : b0.input = b.input := by rw [← hb0]; rfl
  split at h
  · cases h
  rename_i connections hcn
  split at h
  · cases h
  rename_i bs1 h1
  split at h
  · cases h
  rename_i bs2 h2
  split at h
  · cases h
  rename_i bs3 h3
  have e4 := stage_preserves_input t a bs3 connections NeuronLayer.Internal
    NeuronLayer.Output (by simp) b2 h
  have e3 := stage_preserves_input t a bs2 connections NeuronLayer.Internal
    NeuronLayer.Internal (by simp) bs3 h3
  have e2 := stage_preserves_input t a bs1 connections NeuronLayer.Input
    NeuronLayer.Output (by simp) bs2 h2
  have e1 := stage_preserves_input t a b0 connections NeuronLayer.Input
    NeuronLayer.Internal (by simp) bs1 h1
  rw [e4, e3, e2, e1, hrin]

/-- Witness for claim C10: the brain with one internal neuron and the empty
genome completes a compute cycle with its input array unchanged. -/
theorem c10_input_neurons_unchanged_witness :
    ∃ b2, Brain.compute_neurons_state id id (Brain.init 1) [] = some b2 ∧
      b2.input = (Brain.init 1).input :=
  ⟨(Brain.init 1).reset_for_compute,
    rfl, c10_input_neurons_unchanged id id (Brain.init 1) [] _ rfl⟩

end Vita
